import Mathlib

/-!
Verification development for a repository holding two training scripts:

* `ML/gtsdb/train.py` ("script one"): a module-level script that loads an image
  dataset, builds a DenseNet-style network, fits it with data augmentation and
  writes a model file and a CSV of per-epoch metrics.  Modelled in `Gtsdb`.
* `ML/mnist/many-classifiers/python.py` ("script two"): a bake-off of
  classifiers over a digits dataset, printing confusion matrices and an HTML
  table to stdout.  Modelled in `Mnist`.

Numeric values that are floating point in the scripts are modelled as
rationals; wall-clock durations (`time.time()` differences) are inputs of the
model; third-party library calls (classifier `fit`/`predict`, the keras
training loop) are parameters of the model, with their repository-visible
arguments and results recorded explicitly.
-/

namespace Spec2Proof

/-- Python `range(start, stop, step)` for a non-negative step: the increasing
run `start, start+step, ...` strictly below `stop` (empty when `step = 0`,
matching no call sites; the scripts only use a positive step). -/
def pyRange (start stop step : ℕ) : List ℕ :=
  if _h : start < stop ∧ 0 < step then start :: pyRange (start + step) stop step
  else []
termination_by stop - start
decreasing_by
  simp_wf
  omega

/-- Python slice `xs[a:b]` for non-negative bounds: elements at indices
`a, ..., b-1`. -/
def pySlice {α : Type} (xs : List α) (a b : ℕ) : List α :=
  (xs.drop a).take (b - a)

/-- Rounding used to model `"%0.4f" % x`: the numerator of `|q| * 10000`
rounded to the nearest integer (ties rounded up; the scripts never print an
exact tie, so the tie convention is immaterial). -/
def scaled10000 (q : ℚ) : ℕ :=
  (2 * (q.num.natAbs * 10000) + q.den) / (2 * q.den)

/-- The four fractional digits of a `%0.4f` rendering: `n` is the rounded
value scaled by 10000, and these are its last four decimal digits. -/
def pad4digits (n : ℕ) : String :=
  String.mk [Nat.digitChar (n / 1000 % 10), Nat.digitChar (n / 100 % 10),
             Nat.digitChar (n / 10 % 10), Nat.digitChar (n % 10)]

/-- Model of Python `"%0.4f" % q`: optional sign, integer part, a dot and
exactly four fractional digits. -/
def fmt4 (q : ℚ) : String :=
  let n : ℕ := scaled10000 q
  (if q < 0 then "-" else "") ++ Nat.repr (n / 10000) ++ "." ++ pad4digits (n % 10000)

/-- A string that renders a number with exactly four decimal places: some
integer part, then a dot, then four digit characters. -/
def FourDecimals (s : String) : Prop :=
  ∃ intPart fracPart : String,
    s = intPart ++ ("." ++ fracPart) ∧ fracPart.length = 4 ∧
      fracPart.data.all Char.isDigit = true

lemma digitChar_mod10_isDigit (m : ℕ) : (Nat.digitChar (m % 10)).isDigit = true := by
  have h : m % 10 < 10 := Nat.mod_lt m (by norm_num)
  interval_cases h : m % 10 <;> rfl

lemma fmt4_fourDecimals (q : ℚ) : FourDecimals (fmt4 q) := by
  refine ⟨(if q < 0 then "-" else "") ++ Nat.repr (scaled10000 q / 10000),
    pad4digits (scaled10000 q % 10000), ?_, rfl, ?_⟩
  · simp [fmt4, String.append_assoc]
  · simp only [pad4digits, String.data]
    simp [List.all_cons, digitChar_mod10_isDigit]

/-! ### Script one: `ML/gtsdb/train.py`

The script runs at module level.  Its configuration constants are modelled by
definitions of the same names; the data coming from the `gtsdb` dataset
module, the smoothed-label file, the backend dimension ordering and the keras
training history are parameters. -/

namespace Gtsdb

/-- An image, flattened to its pixel values (floats modelled as rationals). -/
abbrev Image := List ℚ

/-- Modelled from the spec: the companion `gtsdb` dataset module is imported by
`train.py` but is not among the provided sources.  The spec describes the data
as "a 100-class image dataset", so its `n_classes` constant is `100`. -/
def n_classes : ℕ := 100

def batch_size : ℕ := 64

def nb_classes : ℕ := n_classes

def nb_epoch : ℕ := 200

def data_augmentation : Bool := true

def load_smoothed_labels : Bool := false

def model_type : String := "dense"

def img_rows : ℕ := 32

def img_cols : ℕ := 32

def img_channels : ℕ := 3

/-- `input_shape`, chosen from the backend's image dimension ordering. -/
def input_shape (dimOrdering : String) : ℕ × ℕ × ℕ :=
  if dimOrdering = "th" then (img_channels, img_rows, img_cols)
  else (img_rows, img_cols, img_channels)

/-- The data returned by `gtsdb.load_data()` that the script reads:
`x_train` and `y_train`. -/
structure LoadedData where
  x_train : List Image
  y_train : List ℕ

/-- `np_utils.to_categorical`: one-hot encoding of class indices. -/
def to_categorical (y : List ℕ) (n : ℕ) : List (List ℚ) :=
  y.map (fun c => (List.range n).map (fun i => if i = c then (1 : ℚ) else 0))

/-- The model-construction call the script makes, with the arguments it
passes. -/
inductive ModelCall where
  | sequential (classes : ℕ) (shape : ℕ × ℕ × ℕ)
  | dense (classes : ℕ) (shape : ℕ × ℕ × ℕ) (depth nbDenseBlock growthRate : ℕ)
      (nbFilter : ℤ) (bottleneckArg : Bool) (reduction dropoutRate : ℚ)
  | notImplemented
deriving DecidableEq

/-- The branch on `model_type` choosing the model-construction call. -/
def modelCall (dimOrdering : String) : ModelCall :=
  if model_type = "sequential" then ModelCall.sequential nb_classes (input_shape dimOrdering)
  else if model_type = "dense" then
    ModelCall.dense nb_classes (input_shape dimOrdering) 100 3 12 (-1) true (1/2) 0
  else ModelCall.notImplemented

/-- `X_train` as loaded. -/
def X_train0 (d : LoadedData) : List Image := d.x_train

/-- `X_val` is bound to `X_train` (the `train_test_split` call is commented
out). -/
def X_val0 (d : LoadedData) : List Image := X_train0 d

/-- `y_val` is bound to `y_train`. -/
def y_val0 (d : LoadedData) : List ℕ := d.y_train

/-- `Y_train`: one-hot labels, or the smoothed labels loaded from file when
`load_smoothed_labels` is set (it is not). -/
def Y_trainOf (d : LoadedData) (smoothed : List (List ℚ)) : List (List ℚ) :=
  if load_smoothed_labels then smoothed else to_categorical d.y_train nb_classes

/-- `Y_val`: one-hot encoding of `y_val`. -/
def Y_valOf (d : LoadedData) : List (List ℚ) := to_categorical (y_val0 d) nb_classes

/-- `X_train` after `astype('float32')` and `/= 255`. -/
def X_trainScaled (d : LoadedData) : List Image :=
  (X_train0 d).map (fun img => img.map (· / 255))

/-- `X_val` after `astype('float32')` and `/= 255`. -/
def X_valScaled (d : LoadedData) : List Image :=
  (X_val0 d).map (fun img => img.map (· / 255))

/-- The `ModelCheckpoint` callback with the arguments the script passes. -/
structure Checkpoint where
  filepath : String
  monitor : String
  save_best_only : Bool
  save_weights_only : Bool
deriving DecidableEq

def checkpointCb : Checkpoint :=
  { filepath := "weights/DenseNet-BC-100-12-gtsdb.h5"
    monitor := "val_acc"
    save_best_only := true
    save_weights_only := false }

/-- The arguments of the `model.fit_generator(datagen.flow(...), ...)` call in
the data-augmentation branch. -/
structure FitGenCall where
  flowX : List Image
  flowY : List (List ℚ)
  flowBatchSize : ℕ
  samples_per_epoch : ℕ
  nbEpoch : ℕ
  validation_data : List Image × List (List ℚ)
  callbacks : List Checkpoint

/-- The `fit_generator` call the script makes: the generator flows over the
scaled training set, and `validation_data` is `(X_train, Y_train)` — the very
arrays being trained on. -/
def fitGenCall (d : LoadedData) (smoothed : List (List ℚ)) : FitGenCall :=
  { flowX := X_trainScaled d
    flowY := Y_trainOf d smoothed
    flowBatchSize := batch_size
    samples_per_epoch := (X_trainScaled d).length
    nbEpoch := nb_epoch
    validation_data := (X_trainScaled d, Y_trainOf d smoothed)
    callbacks := [checkpointCb] }

/-- A file the script writes: the `history.csv` rows, or the saved model. -/
inductive Artifact where
  | csvFile (path : String) (rows : List (List String))
  | modelFile (path : String)
deriving DecidableEq

/-- The per-epoch metric lists read off `history_callback.history`. -/
structure Histories where
  loss : List ℚ
  acc : List ℚ
  val_acc : List ℚ

/-- The data rows of `history.csv`: `zip` of the three metric lists, each
value rendered with `"%0.4f"`. -/
def historyRows (h : Histories) : List (List String) :=
  (h.loss.zip (h.acc.zip h.val_acc)).map
    (fun t => [Spec2Proof.fmt4 t.1, Spec2Proof.fmt4 t.2.1, Spec2Proof.fmt4 t.2.2])

/-- The files written by the tail of the script: `history.csv` (header row
then data rows) in the data-augmentation branch, and `model.save('gtsdb.h5')`
unconditionally. -/
def trainArtifacts (dataAug : Bool) (h : Histories) : List Artifact :=
  (if dataAug then
     [Artifact.csvFile "history.csv" (["loss", "acc", "val_acc"] :: historyRows h)]
   else []) ++ [Artifact.modelFile "gtsdb.h5"]

/-- Everything observable the script does, in its source order: the model
construction call, the `fit_generator` call, and the files written. -/
structure TrainResult where
  modelCallMade : ModelCall
  fitGen : FitGenCall
  artifacts : List Artifact

/-- The successful run of the script body. -/
def trainScript (dimOrdering : String) (d : LoadedData) (smoothed : List (List ℚ))
    (h : Histories) : TrainResult :=
  { modelCallMade := modelCall dimOrdering
    fitGen := fitGenCall d smoothed
    artifacts := trainArtifacts data_augmentation h }

/-- The script body with its two fallible library stages explicit: the
`gtsdb.load_data()` call and the training loop.  The script installs no
handler, so a raised exception propagates and aborts the run before any later
artifact is produced. -/
def trainScriptE (dimOrdering : String) (ld : Except String LoadedData)
    (smoothed : List (List ℚ)) (ft : Except String Histories) :
    Except String TrainResult := do
  let d ← ld
  let h ← ft
  pure (trainScript dimOrdering d smoothed h)

/-- The command-line boundary of script one: the argument vector is accepted
and never inspected (the script parses no flags). -/
def trainScriptCLI (_argv : List String) (dimOrdering : String)
    (ld : Except String LoadedData) (smoothed : List (List ℚ))
    (ft : Except String Histories) : Except String TrainResult :=
  trainScriptE dimOrdering ld smoothed ft

end Gtsdb

/-! ### Script two: `ML/mnist/many-classifiers/python.py`

`main` is modelled as a function from the (library-supplied) classifier
behaviours and the loaded dataset to the trace of observable events it
produces — stdout prints, `fit`/`predict` library calls, file writes — plus
the propagated exception, if a `fit` raised one. -/

namespace Mnist

/-- A feature row of the dataset. -/
abbrev Row := List ℚ

/-- A class label (digit). -/
abbrev Label := ℤ

/-- The dictionary `get_data()` returns. -/
structure Dataset where
  trainX : List Row
  trainY : List Label
  testX : List Row
  testY : List Label

/-- The library-defined behaviour of one classifier object: `fit` either
raises (an exception rendered as a string) or yields the fitted object's
`predict` function; the two wall-clock durations the script measures are
inputs of the model. -/
structure Behavior where
  fit : List Row → List Label → Except String (List Row → List Label)
  fitTime : ℚ
  testTime : ℚ

/-- Observable events of a run of script two. -/
inductive PyEvent where
  | getData
  | printLine (s : String)
  | fitCall (clfName : String)
  | predictCall (clfName : String) (lo hi : ℕ)
  | printConfusion (actual predicted : List Label)
  | writeFile (path content : String)
deriving DecidableEq

/-- Event class tests. -/
def isFit : PyEvent → Bool
  | PyEvent.fitCall _ => true
  | _ => false

def isPredict : PyEvent → Bool
  | PyEvent.predictCall _ _ _ => true
  | _ => false

def isWrite : PyEvent → Bool
  | PyEvent.writeFile _ _ => true
  | _ => false

/-- The classifier a `fit`/`predict` call is addressed to, if any. -/
def eventClf : PyEvent → Option String
  | PyEvent.fitCall n => some n
  | PyEvent.predictCall n _ _ => some n
  | _ => none

/-- The chunked prediction in `analyze`: `predicted` starts empty and, for
every `i in range(0, len(test X), 128)`, the predictions on the slice
`[i : i+128]` are appended. -/
def chunkedPredict {α β : Type} (predict : List α → List β) (xs : List α) : List β :=
  (Spec2Proof.pyRange 0 xs.length 128).foldl
    (fun acc i => acc ++ predict (Spec2Proof.pySlice xs i (i + 128))) []

/-- `sklearn.metrics.accuracy_score`: the fraction of positions where the two
label lists agree. -/
def accuracy_score (actual predicted : List Label) : ℚ :=
  if actual.length = 0 then 0
  else ((actual.zip predicted).countP (fun p => p.1 == p.2) : ℚ) / (actual.length : ℚ)

/-- The ASCII apostrophe (written by code point to keep the sources plain). -/
def apos : String := String.mk [Char.ofNat 39]

/-- The trace of `analyze`: one `predict` call per 128-element chunk, then the
name, the two timing lines, the confusion matrix of the test labels against
the concatenated predictions, and the accuracy line. -/
def analyzeTrace (predict : List Row → List Label) (clfName : String)
    (testTime fitTime : ℚ) (d : Dataset) : List PyEvent :=
  (Spec2Proof.pyRange 0 d.testX.length 128).map
      (fun i => PyEvent.predictCall clfName i (i + 128))
    ++ [PyEvent.printLine ("Classifier: " ++ clfName),
        PyEvent.printLine ("Training time: " ++ (Spec2Proof.fmt4 fitTime ++ "s")),
        PyEvent.printLine ("Testing time: " ++ (Spec2Proof.fmt4 testTime ++ "s")),
        PyEvent.printConfusion d.testY (chunkedPredict predict d.testX),
        PyEvent.printLine
          ("Accuracy: " ++ Spec2Proof.fmt4 (accuracy_score d.testY (chunkedPredict predict d.testX)))]

/-- The dictionary entry `analyze` returns together with the recorded
training time: one row of `classifier_data`. -/
structure RowData where
  training_time : ℚ
  testing_time : ℚ
  accuracy : ℚ
deriving DecidableEq

def danger_msg : String := "class=\"danger\""

/-- `acc_msg`: the accuracy cell's attribute, `danger_msg` exactly below 0.9. -/
def acc_msg (r : RowData) : String :=
  if r.accuracy < 9/10 then danger_msg else ""

/-- `test_msg`: the testing-time cell's attribute, `danger_msg` exactly above
5 seconds. -/
def test_msg (r : RowData) : String :=
  if r.testing_time > 5 then danger_msg else ""

/-- The triple-quoted `<table>`/`<thead>` block printed by `print_website` in
one `print` call. -/
def websiteHeader : String :=
  "<table>\n  <thead>\n    <tr>\n        <th>Classifier</th>\n        <th>Accuracy</th>\n        <th>Training Time</th>\n        <th>Testing Time</th>\n    </tr>\n  </thead>\n  <tbody>"

/-- The six lines printed for one classifier's table row.  Only the accuracy
and testing-time cells have an attribute slot; the name and training-time
cells are fixed markup around their content. -/
def websiteRow (fmtS : ℚ → String) (e : String × RowData) : List PyEvent :=
  [PyEvent.printLine "<tr>",
   PyEvent.printLine ("\t<td>" ++ (e.1 ++ "</td>")),
   PyEvent.printLine
     ("\t<td align=\"right\" " ++ (acc_msg e.2 ++ (">" ++ (fmtS e.2.accuracy ++ "%</td>")))),
   PyEvent.printLine ("\t<td align=\"right\">" ++ (fmtS e.2.training_time ++ "s</td>")),
   PyEvent.printLine
     ("\t<td align=\"right\" " ++ (test_msg e.2 ++ (">" ++ (fmtS e.2.testing_time ++ "s</td>")))),
   PyEvent.printLine "</tr>"]

/-- `sorted(data.items())`: the rows of the report in ascending order of
classifier name (the names are the dictionary's keys and are distinct, so the
tuple comparison never reaches the second component). -/
def sortedItems (data : List (String × RowData)) : List (String × RowData) :=
  List.insertionSort (fun a b => a.1 ≤ b.1) data

instance : DecidableRel (fun (a b : String × RowData) => a.1 ≤ b.1) :=
  fun a b => inferInstanceAs (Decidable (a.1 ≤ b.1))

/-- The trace of `print_website(data)`: the header block, six lines per
classifier in sorted name order, and the two closing tags.  `fmtS` models
Python's `str` rendering of a float, which the repository does not define. -/
def print_website (fmtS : ℚ → String) (data : List (String × RowData)) : List PyEvent :=
  PyEvent.printLine websiteHeader ::
    ((sortedItems data).flatMap (websiteRow fmtS)
      ++ [PyEvent.printLine "</tbody>", PyEvent.printLine "</table>"])

/-- One entry of the `classifiers` list: a display name and the constructed
library object's behaviour. -/
structure ClfEntry where
  name : String
  beh : Behavior

/-- `examples = 100000`: the cap on the training examples passed to `fit`. -/
def examples : ℕ := 100000

/-- `"#" * 80`. -/
def hashes80 : String := String.mk (List.replicate 80 (Char.ofNat 35))

/-- `"Start fitting '%s' classifier." % clf_name`. -/
def startLine (n : String) : String :=
  "Start fitting " ++ (apos ++ (n ++ (apos ++ " classifier.")))

/-- The result of the `clf.fit` call on the capped training set. -/
def fitResult (d : Dataset) (c : ClfEntry) : Except String (List Row → List Label) :=
  c.beh.fit (d.trainX.take examples) (d.trainY.take examples)

/-- The fitted object's `predict` function, defined on the success path. -/
def fittedPredict (d : Dataset) (c : ClfEntry) : List Row → List Label :=
  match fitResult d c with
  | Except.ok f => f
  | Except.error _ => fun _ => []

/-- The events of one loop iteration up to and including the `fit` call. -/
def segHead (c : ClfEntry) : List PyEvent :=
  [PyEvent.printLine hashes80, PyEvent.printLine (startLine c.name),
   PyEvent.fitCall c.name]

/-- The `classifier_data` row recorded for a successfully fitted classifier. -/
def rowOf (d : Dataset) (c : ClfEntry) : String × RowData :=
  (c.name,
   { training_time := c.beh.fitTime
     testing_time := c.beh.testTime
     accuracy := accuracy_score d.testY (chunkedPredict (fittedPredict d c) d.testX) })

/-- The full trace of one loop iteration on the success path. -/
def normalSeg (d : Dataset) (c : ClfEntry) : List PyEvent :=
  segHead c ++ analyzeTrace (fittedPredict d c) c.name c.beh.testTime c.beh.fitTime d

/-- The fitting loop of `main`, carrying the trace emitted so far and the
`classifier_data` accumulator.  A raised `fit` exception propagates: the run
stops with the trace up to the failing call. -/
def mainLoop (fmtS : ℚ → String) (d : Dataset) :
    List ClfEntry → List PyEvent → List (String × RowData) →
    List PyEvent × Option String
  | [], tr, cdata => (tr ++ print_website fmtS cdata, none)
  | c :: rest, tr, cdata =>
    match fitResult d c with
    | Except.error e => (tr ++ segHead c, some e)
    | Except.ok pf =>
      mainLoop fmtS d rest
        (tr ++ (segHead c ++ analyzeTrace pf c.name c.beh.testTime c.beh.fitTime d))
        (cdata ++ [(c.name,
          { training_time := c.beh.fitTime
            testing_time := c.beh.testTime
            accuracy := accuracy_score d.testY (chunkedPredict pf d.testX) })])

/-- `main` on a given classifiers list: `get_data()`, the fitting loop, then
`print_website`. -/
def mainRun (fmtS : ℚ → String) (cs : List ClfEntry) (d : Dataset) :
    List PyEvent × Option String :=
  mainLoop fmtS d cs [PyEvent.getData] []

/-- The display names of the `classifiers` list built in `main`, in source
order (the LDA and QDA entries are commented out). -/
def mainClassifierNames : List String :=
  ["NN 500:200", "NN 500:200 dropout", "CNN", "adj. SVM", "linear SVM",
   "k nn", "Decision Tree", "Random Forest", "Random Forest 2", "AdaBoost",
   "Naive Bayes", "Gradient Boosting"]

/-- The `classifiers` list of `main`: the twelve named entries, with the
library-constructed objects' behaviours supplied by `beh`. -/
def mainClassifiers (beh : String → Behavior) : List ClfEntry :=
  mainClassifierNames.map (fun n => { name := n, beh := beh n })

/-- A full run of `main`. -/
def pythonMain (fmtS : ℚ → String) (beh : String → Behavior) (d : Dataset) :
    List PyEvent × Option String :=
  mainRun fmtS (mainClassifiers beh) d

/-- The command-line boundary of script two: the `__main__` guard calls
`main()`; the argument vector is never inspected. -/
def pythonMainCLI (_argv : List String) (fmtS : ℚ → String)
    (beh : String → Behavior) (d : Dataset) : List PyEvent × Option String :=
  pythonMain fmtS beh d

/-- Every `fit` in the given classifier list succeeds. -/
def AllOk (d : Dataset) (cs : List ClfEntry) : Prop :=
  ∀ c ∈ cs, (fitResult d c).isOk = true

end Mnist

/-! ### Lemmas about the shared helpers -/

lemma pyRange_pos (start stop : ℕ) (h : start < stop) (step : ℕ) (hs : 0 < step) :
    pyRange start stop step = start :: pyRange (start + step) stop step := by
  rw [pyRange]
  simp [h, hs]

lemma pyRange_nil (start stop step : ℕ) (h : stop ≤ start) :
    pyRange start stop step = [] := by
  rw [pyRange]
  simp
  omega

/-- Folding a per-chunk `map` over the chunk starts appends exactly the image
of the tail of the list from `start` on. -/
lemma chunk_foldl {α β : Type} (f : α → β) (xs : List α) (step : ℕ) (hstep : 0 < step)
    (start : ℕ) (acc : List β) :
    (pyRange start xs.length step).foldl
        (fun a i => a ++ (pySlice xs i (i + step)).map f) acc
      = acc ++ (xs.drop start).map f := by
  by_cases h : start < xs.length
  · rw [pyRange_pos start xs.length h step hstep]
    simp only [List.foldl_cons]
    rw [chunk_foldl f xs step hstep (start + step) _]
    rw [List.append_assoc]
    congr 1
    rw [pySlice]
    have h1 : start + step - start = step := by omega
    rw [h1, ← List.map_append]
    congr 1
    rw [← List.drop_drop, List.take_append_drop]
  · rw [pyRange_nil start xs.length step (by omega)]
    simp [List.drop_eq_nil_of_le (by omega : xs.length ≤ start)]
termination_by xs.length - start
decreasing_by
  simp_wf
  omega

namespace Mnist

/-- If `predict` acts row-wise as `map f`, the chunked prediction is the
row-wise prediction of the whole list. -/
lemma chunkedPredict_map {α β : Type} (predict : List α → List β) (f : α → β)
    (hpred : ∀ ys, predict ys = ys.map f) (xs : List α) :
    chunkedPredict predict xs = xs.map f := by
  unfold chunkedPredict
  simp only [hpred]
  simpa using chunk_foldl f xs 128 (by norm_num) 0 []

/-- On an all-successful classifier list, the fitting loop emits the segments
of all classifiers in order and then the report over the accumulated rows,
raising nothing. -/
lemma mainLoop_allOk (fmtS : ℚ → String) (d : Dataset) (cs : List ClfEntry)
    (h : AllOk d cs) (tr : List PyEvent) (cdata : List (String × RowData)) :
    mainLoop fmtS d cs tr cdata =
      (tr ++ (cs.flatMap (normalSeg d) ++ print_website fmtS (cdata ++ cs.map (rowOf d))),
       none) := by
  induction cs generalizing tr cdata with
  | nil => simp [mainLoop]
  | cons c rest ih =>
    have hc : (fitResult d c).isOk = true := h c (by simp)
    rcases hfr : fitResult d c with e | pf
    · rw [hfr] at hc
      simp [Except.isOk, Except.toBool] at hc
    · simp only [mainLoop, hfr]
      rw [ih (fun c' hc' => h c' (List.mem_cons_of_mem _ hc'))]
      have hfp : fittedPredict d c = pf := by
        simp [fittedPredict, hfr]
      simp [normalSeg, rowOf, hfp, List.append_assoc]

/-- If the classifiers before `c` all fit successfully and `c`'s `fit`
raises `e`, the loop stops right after `c`'s `fit` call with `e`
propagating. -/
lemma mainLoop_firstFail (fmtS : ℚ → String) (d : Dataset) (before : List ClfEntry)
    (c : ClfEntry) (after : List ClfEntry) (e : String)
    (hok : AllOk d before) (hc : fitResult d c = Except.error e)
    (tr : List PyEvent) (cdata : List (String × RowData)) :
    mainLoop fmtS d (before ++ c :: after) tr cdata =
      (tr ++ (before.flatMap (normalSeg d) ++ segHead c), some e) := by
  induction before generalizing tr cdata with
  | nil => simp [mainLoop, hc]
  | cons b rest ih =>
    have hb : (fitResult d b).isOk = true := hok b (by simp)
    rcases hfr : fitResult d b with e' | pf
    · rw [hfr] at hb
      simp [Except.isOk, Except.toBool] at hb
    · simp only [List.cons_append, mainLoop, hfr, List.append_eq]
      rw [ih (fun c' hc' => hok c' (List.mem_cons_of_mem _ hc'))]
      have hfp : fittedPredict d b = pf := by
        simp [fittedPredict, hfr]
      simp [normalSeg, hfp, List.append_assoc]

/-! ### Classifying the events of the trace pieces -/

/-- `e` is a `predict` call addressed to classifier `n`. -/
def isPredictOf (n : String) (e : PyEvent) : Prop :=
  ∃ lo hi, e = PyEvent.predictCall n lo hi

lemma mem_segHead {c : ClfEntry} {e : PyEvent} (he : e ∈ segHead c) :
    e = PyEvent.printLine hashes80 ∨ e = PyEvent.printLine (startLine c.name) ∨
      e = PyEvent.fitCall c.name := by
  simpa [segHead] using he

lemma mem_analyzeTrace {pf : List Row → List Label} {n : String} {tt ft : ℚ}
    {d : Dataset} {e : PyEvent} (he : e ∈ analyzeTrace pf n tt ft d) :
    (∃ lo hi, e = PyEvent.predictCall n lo hi) ∨ (∃ s, e = PyEvent.printLine s) ∨
      e = PyEvent.printConfusion d.testY (chunkedPredict pf d.testX) := by
  simp only [analyzeTrace, List.mem_append, List.mem_map, List.mem_cons,
    List.mem_singleton, List.not_mem_nil, or_false] at he
  rcases he with ⟨i, -, rfl⟩ | h | h | h | h | h
  · exact Or.inl ⟨i, i + 128, rfl⟩
  all_goals subst h
  · exact Or.inr (Or.inl ⟨_, rfl⟩)
  · exact Or.inr (Or.inl ⟨_, rfl⟩)
  · exact Or.inr (Or.inl ⟨_, rfl⟩)
  · exact Or.inr (Or.inr rfl)
  · exact Or.inr (Or.inl ⟨_, rfl⟩)

lemma eventClf_of_mem_normalSeg {d : Dataset} {c : ClfEntry} {e : PyEvent}
    (he : e ∈ normalSeg d c) : eventClf e = none ∨ eventClf e = some c.name := by
  rcases List.mem_append.mp he with h | h
  · rcases mem_segHead h with rfl | rfl | rfl <;> simp [eventClf]
  · rcases mem_analyzeTrace h with ⟨lo, hi, rfl⟩ | ⟨s, rfl⟩ | rfl <;> simp [eventClf]

lemma not_isFit_of_mem_analyzeTrace {pf : List Row → List Label} {n : String}
    {tt ft : ℚ} {d : Dataset} {e : PyEvent} (he : e ∈ analyzeTrace pf n tt ft d) :
    isFit e = false := by
  rcases mem_analyzeTrace he with ⟨lo, hi, rfl⟩ | ⟨s, rfl⟩ | rfl <;> rfl

lemma not_isWrite_of_mem_normalSeg {d : Dataset} {c : ClfEntry} {e : PyEvent}
    (he : e ∈ normalSeg d c) : isWrite e = false := by
  rcases List.mem_append.mp he with h | h
  · rcases mem_segHead h with rfl | rfl | rfl <;> rfl
  · rcases mem_analyzeTrace h with ⟨lo, hi, rfl⟩ | ⟨s, rfl⟩ | rfl <;> rfl

lemma mem_print_website {fmtS : ℚ → String} {data : List (String × RowData)}
    {e : PyEvent} (he : e ∈ print_website fmtS data) : ∃ s, e = PyEvent.printLine s := by
  simp only [print_website, List.mem_cons, List.mem_append, List.mem_flatMap,
    List.mem_singleton, List.not_mem_nil, or_false] at he
  rcases he with rfl | ⟨⟨x, -, hx⟩ | rfl | rfl⟩
  · exact ⟨_, rfl⟩
  · simp only [websiteRow, List.mem_cons, List.mem_singleton, List.not_mem_nil,
      or_false] at hx
    rcases hx with rfl | rfl | rfl | rfl | rfl | rfl <;> exact ⟨_, rfl⟩
  · exact ⟨_, rfl⟩
  · exact ⟨_, rfl⟩

lemma filter_isFit_segHead (c : ClfEntry) :
    (segHead c).filter isFit = [PyEvent.fitCall c.name] := by
  simp [segHead, isFit]

lemma filter_isFit_analyzeTrace (pf : List Row → List Label) (n : String)
    (tt ft : ℚ) (d : Dataset) : (analyzeTrace pf n tt ft d).filter isFit = [] :=
  List.filter_eq_nil_iff.mpr (fun e he => by
    simp [not_isFit_of_mem_analyzeTrace he])

lemma filter_isFit_normalSeg (d : Dataset) (c : ClfEntry) :
    (normalSeg d c).filter isFit = [PyEvent.fitCall c.name] := by
  rw [normalSeg, List.filter_append, filter_isFit_segHead, filter_isFit_analyzeTrace]
  rfl

lemma filter_isFit_flatMap (d : Dataset) (cs : List ClfEntry) :
    (cs.flatMap (normalSeg d)).filter isFit = cs.map (fun c => PyEvent.fitCall c.name) := by
  induction cs with
  | nil => rfl
  | cons c rest ih =>
    rw [List.flatMap_cons, List.filter_append, filter_isFit_normalSeg, ih]
    rfl

lemma filter_isFit_print_website (fmtS : ℚ → String) (data : List (String × RowData)) :
    (print_website fmtS data).filter isFit = [] :=
  List.filter_eq_nil_iff.mpr (fun e he => by
    obtain ⟨s, rfl⟩ := mem_print_website he
    simp [isFit])

/-! ### An ordering relation on traces -/

/-- Every event satisfying `p` occurs strictly before every event satisfying
`q` in the trace `tr`. -/
def Precedes {α : Type} (tr : List α) (p q : α → Prop) : Prop :=
  ∀ (i j : ℕ) (hi : i < tr.length) (hj : j < tr.length), p tr[i] → q tr[j] → i < j

lemma precedes_append {α : Type} {p q : α → Prop} (a b : List α)
    (ha : ∀ e ∈ a, ¬ q e) (hb : ∀ e ∈ b, ¬ p e) : Precedes (a ++ b) p q := by
  intro i j hi hj hp hq
  by_cases hia : i < a.length
  · by_cases hja : j < a.length
    · rw [List.getElem_append_left hja] at hq
      exact absurd hq (ha _ (List.getElem_mem _))
    · omega
  · rw [List.getElem_append_right (by omega)] at hp
    exact absurd hp (hb _ (List.getElem_mem _))

lemma nodup_get_not_mem_take {α : Type} {l : List α} (hl : l.Nodup) (j : ℕ)
    (hj : j < l.length) : l.get ⟨j, hj⟩ ∉ l.take j := by
  have hl2 : (l.take j ++ l.drop j).Nodup := by rwa [List.take_append_drop]
  obtain ⟨-, -, hdisj⟩ := List.nodup_append.mp hl2
  intro hmem
  refine hdisj hmem ?_
  have h0 : 0 < (l.drop j).length := by
    rw [List.length_drop]
    omega
  have : (l.drop j)[0] = l.get ⟨j, hj⟩ := by
    rw [List.getElem_drop]
    simp [List.get_eq_getElem]
  rw [← this]
  exact List.getElem_mem h0

lemma nodup_get_not_mem_drop {α : Type} {l : List α} (hl : l.Nodup) (k : ℕ)
    (hk : k < l.length) : l.get ⟨k, hk⟩ ∉ l.drop (k + 1) := by
  have hl2 : (l.take (k + 1) ++ l.drop (k + 1)).Nodup := by rwa [List.take_append_drop]
  obtain ⟨-, -, hdisj⟩ := List.nodup_append.mp hl2
  intro hmem
  have hkt : k < (l.take (k + 1)).length := by
    rw [List.length_take]
    omega
  refine hdisj ?_ hmem
  have : (l.take (k + 1))[k] = l.get ⟨k, hk⟩ := by
    rw [List.getElem_take]
    simp [List.get_eq_getElem]
  rw [← this]
  exact List.getElem_mem hkt

/-! ### The analyze / loop print lines are never the report header -/

lemma string_append_ne_of_head (a s t : String) (c : Char)
    (ha : a.data.head? = some c) (ht : t.data.head? ≠ some c) : a ++ s ≠ t := by
  intro h
  apply ht
  rw [← h, String.data_append, List.head?_append, ha]
  rfl

lemma websiteHeader_head : websiteHeader.data.head? = some (Char.ofNat 60) := rfl

lemma classifier_line_ne_header (s : String) : "Classifier: " ++ s ≠ websiteHeader :=
  string_append_ne_of_head _ s _ 'C' rfl (by rw [websiteHeader_head]; decide)

lemma training_line_ne_header (s : String) : "Training time: " ++ s ≠ websiteHeader :=
  string_append_ne_of_head _ s _ 'T' rfl (by rw [websiteHeader_head]; decide)

lemma testing_line_ne_header (s : String) : "Testing time: " ++ s ≠ websiteHeader :=
  string_append_ne_of_head _ s _ 'T' rfl (by rw [websiteHeader_head]; decide)

lemma accuracy_line_ne_header (s : String) : "Accuracy: " ++ s ≠ websiteHeader :=
  string_append_ne_of_head _ s _ 'A' rfl (by rw [websiteHeader_head]; decide)

lemma startLine_ne_header (n : String) : startLine n ≠ websiteHeader :=
  string_append_ne_of_head "Start fitting " _ _ 'S' rfl (by rw [websiteHeader_head]; decide)

lemma hashes80_ne_header : hashes80 ≠ websiteHeader := by decide

lemma header_not_mem_analyzeTrace (pf : List Row → List Label) (n : String)
    (tt ft : ℚ) (d : Dataset) :
    PyEvent.printLine websiteHeader ∉ analyzeTrace pf n tt ft d := by
  intro hmem
  simp only [analyzeTrace, List.mem_append, List.mem_map, List.mem_cons,
    List.mem_singleton, List.not_mem_nil, or_false] at hmem
  rcases hmem with ⟨i, -, h⟩ | h | h | h | h | h
  · exact absurd h (by simp)
  · exact classifier_line_ne_header n (by injection h.symm)
  · exact training_line_ne_header _ (by injection h.symm)
  · exact testing_line_ne_header _ (by injection h.symm)
  · exact absurd h (by simp)
  · exact accuracy_line_ne_header _ (by injection h.symm)

lemma header_not_mem_segHead (c : ClfEntry) :
    PyEvent.printLine websiteHeader ∉ segHead c := by
  intro hmem
  rcases mem_segHead hmem with h | h | h
  · injection h with h2
    exact hashes80_ne_header h2.symm
  · injection h with h2
    exact startLine_ne_header c.name h2.symm
  · exact PyEvent.noConfusion h

lemma header_not_mem_normalSeg (d : Dataset) (c : ClfEntry) :
    PyEvent.printLine websiteHeader ∉ normalSeg d c := by
  intro hmem
  rcases List.mem_append.mp hmem with h | h
  · exact header_not_mem_segHead c h
  · exact header_not_mem_analyzeTrace _ _ _ _ _ h

lemma eventClf_of_isPredictOf {n : String} {e : PyEvent} (h : isPredictOf n e) :
    eventClf e = some n := by
  rcases h with ⟨lo, hi, rfl⟩
  rfl

lemma not_isPredictOf_of_mem_segHead {c : ClfEntry} {n : String} {e : PyEvent}
    (he : e ∈ segHead c) : ¬ isPredictOf n e := by
  rcases mem_segHead he with rfl | rfl | rfl <;> rintro ⟨lo, hi, h2⟩ <;>
    exact PyEvent.noConfusion h2

lemma eventClf_of_mem_print_website {fmtS : ℚ → String}
    {data : List (String × RowData)} {e : PyEvent} (he : e ∈ print_website fmtS data) :
    eventClf e = none := by
  obtain ⟨s, rfl⟩ := mem_print_website he
  rfl

lemma eventClf_ne_of_mem_flatMap {d : Dataset} {beh : String → Behavior}
    {ms : List String} {n : String} (hn : n ∉ ms) {e : PyEvent}
    (he : e ∈ (ms.map (fun m => ({ name := m, beh := beh m } : ClfEntry))).flatMap
      (normalSeg d)) : eventClf e ≠ some n := by
  obtain ⟨c, hc, hec⟩ := List.mem_flatMap.mp he
  obtain ⟨m, hm, rfl⟩ := List.mem_map.mp hc
  rcases eventClf_of_mem_normalSeg hec with h0 | h0 <;> rw [h0]
  · simp
  · intro hEq
    injection hEq with hEq2
    exact hn (hEq2 ▸ hm)

end Mnist

/-! ### Claims about script one -/

/-- C1: script one configures its DenseNet-style network for a 100-class
dataset: with `model_type = 'dense'` the script calls
`densenet.create_dense_net` with `nb_classes` as the number of output
classes, and `nb_classes = gtsdb.n_classes = 100`. -/
theorem claim_C1 (dimOrdering : String) :
    Gtsdb.modelCall dimOrdering =
      Gtsdb.ModelCall.dense 100 (Gtsdb.input_shape dimOrdering) 100 3 12 (-1) true (1/2) 0
    ∧ Gtsdb.nb_classes = Gtsdb.n_classes ∧ Gtsdb.n_classes = 100 := by
  refine ⟨?_, rfl, rfl⟩
  rfl

/-- C3: in script one the validation set is the training set: `X_val`/`y_val`
are bound to `X_train`/`y_train`, the `fit_generator` call receives
`validation_data = (X_train, Y_train)` — exactly the arrays flowing through
the training generator — and the `ModelCheckpoint` callback passed to it
monitors `'val_acc'` with `save_best_only`. -/
theorem claim_C3 (d : Gtsdb.LoadedData) (smoothed : List (List ℚ)) :
    Gtsdb.X_val0 d = Gtsdb.X_train0 d ∧
    Gtsdb.y_val0 d = d.y_train ∧
    (Gtsdb.fitGenCall d smoothed).validation_data =
      ((Gtsdb.fitGenCall d smoothed).flowX, (Gtsdb.fitGenCall d smoothed).flowY) ∧
    (Gtsdb.fitGenCall d smoothed).validation_data =
      (Gtsdb.X_trainScaled d, Gtsdb.Y_trainOf d smoothed) ∧
    Gtsdb.checkpointCb.monitor = "val_acc" ∧
    Gtsdb.checkpointCb.save_best_only = true ∧
    (Gtsdb.fitGenCall d smoothed).callbacks = [Gtsdb.checkpointCb] :=
  ⟨rfl, rfl, rfl, rfl, rfl, rfl, rfl⟩

/-- C4: script one writes `gtsdb.h5` on every successful run (whatever the
`data_augmentation` flag), and — with the flag set as in the source — a
`history.csv` whose first row is the header `loss, acc, val_acc`, followed by
one row per training epoch, each of whose three cells is a value formatted to
four decimal places. -/
theorem claim_C4 (hist : Gtsdb.Histories)
    (h1 : hist.loss.length = Gtsdb.nb_epoch) (h2 : hist.acc.length = Gtsdb.nb_epoch)
    (h3 : hist.val_acc.length = Gtsdb.nb_epoch) :
    (∀ (b : Bool) (hist' : Gtsdb.Histories),
        Gtsdb.Artifact.modelFile "gtsdb.h5" ∈ Gtsdb.trainArtifacts b hist') ∧
    Gtsdb.trainArtifacts Gtsdb.data_augmentation hist =
      [Gtsdb.Artifact.csvFile "history.csv"
         (["loss", "acc", "val_acc"] :: Gtsdb.historyRows hist),
       Gtsdb.Artifact.modelFile "gtsdb.h5"] ∧
    (Gtsdb.historyRows hist).length = Gtsdb.nb_epoch ∧
    (∀ row ∈ Gtsdb.historyRows hist, row.length = 3 ∧ ∀ cell ∈ row, FourDecimals cell) := by
  refine ⟨?_, rfl, ?_, ?_⟩
  · intro b hist'
    cases b <;> simp [Gtsdb.trainArtifacts]
  · simp [Gtsdb.historyRows, h1, h2, h3]
  · intro row hrow
    simp only [Gtsdb.historyRows, List.mem_map] at hrow
    obtain ⟨t, -, rfl⟩ := hrow
    refine ⟨rfl, ?_⟩
    intro cell hcell
    simp only [List.mem_cons, List.mem_singleton, List.not_mem_nil, or_false] at hcell
    rcases hcell with rfl | rfl | rfl <;> exact fmt4_fourDecimals _

/-- Witness for C4 at a concrete 200-epoch history. -/
theorem claim_C4_witness :
    (Gtsdb.historyRows
      ⟨List.replicate 200 ((1 : ℚ)/2), List.replicate 200 1,
       List.replicate 200 ((3 : ℚ)/4)⟩).length = Gtsdb.nb_epoch :=
  (claim_C4 _ (by rw [List.length_replicate]; rfl) (by rw [List.length_replicate]; rfl)
    (by rw [List.length_replicate]; rfl)).2.2.1

/-! ### Claims about script two -/

/-- C10: the chunked prediction of `analyze` refines whole-set prediction:
when the classifier's `predict` maps each input row independently, the
concatenation over chunks of 128 has one prediction per test example and
equals predicting the whole list in one call. -/
theorem claim_C10 {α β : Type} (predict : List α → List β) (f : α → β) (xs : List α)
    (hpred : ∀ ys, predict ys = ys.map f) :
    Mnist.chunkedPredict predict xs = xs.map f ∧
    (Mnist.chunkedPredict predict xs).length = xs.length := by
  have h := Mnist.chunkedPredict_map predict f hpred xs
  exact ⟨h, by rw [h, List.length_map]⟩

/-- Witness for C10 at a concrete row-wise predictor. -/
theorem claim_C10_witness :
    Mnist.chunkedPredict (fun ys : List ℕ => ys.map (· + 1)) [1, 2, 3]
      = ([1, 2, 3] : List ℕ).map (· + 1) ∧
    (Mnist.chunkedPredict (fun ys : List ℕ => ys.map (· + 1)) [1, 2, 3]).length
      = ([1, 2, 3] : List ℕ).length :=
  claim_C10 _ _ _ (fun _ => rfl)

/-- C9: `print_website` renders its rows in ascending classifier-name order
(one row block per dictionary entry), and a cell carries the
`class="danger"` attribute exactly when its threshold is crossed: the
accuracy cell iff accuracy is below 0.9 and the testing-time cell iff the
testing time exceeds 5 seconds; the name and training-time cells are fixed
markup with no attribute slot at all. -/
theorem claim_C9 (fmtS : ℚ → String) (data : List (String × Mnist.RowData)) :
    Mnist.print_website fmtS data
      = Mnist.PyEvent.printLine Mnist.websiteHeader ::
          ((Mnist.sortedItems data).flatMap (Mnist.websiteRow fmtS)
            ++ [Mnist.PyEvent.printLine "</tbody>", Mnist.PyEvent.printLine "</table>"]) ∧
    List.Sorted (· ≤ ·) ((Mnist.sortedItems data).map Prod.fst) ∧
    (Mnist.sortedItems data).Perm data ∧
    (∀ r : Mnist.RowData,
      (Mnist.acc_msg r = Mnist.danger_msg ↔ r.accuracy < 9/10) ∧
      (Mnist.acc_msg r = "" ↔ ¬ r.accuracy < 9/10) ∧
      (Mnist.test_msg r = Mnist.danger_msg ↔ r.testing_time > 5) ∧
      (Mnist.test_msg r = "" ↔ ¬ r.testing_time > 5)) ∧
    (∀ e : String × Mnist.RowData,
      (Mnist.websiteRow fmtS e).get ⟨1, by simp [Mnist.websiteRow]⟩
        = Mnist.PyEvent.printLine ("\t<td>" ++ (e.1 ++ "</td>")) ∧
      (Mnist.websiteRow fmtS e).get ⟨3, by simp [Mnist.websiteRow]⟩
        = Mnist.PyEvent.printLine
            ("\t<td align=\"right\">" ++ (fmtS e.2.training_time ++ "s</td>"))) := by
  have hd : ("" : String) ≠ Mnist.danger_msg := by decide
  refine ⟨rfl, ?_, List.perm_insertionSort _ data, ?_, fun e => ⟨rfl, rfl⟩⟩
  · haveI : IsTotal (String × Mnist.RowData) (fun a b => a.1 ≤ b.1) :=
      ⟨fun a b => le_total a.1 b.1⟩
    haveI : IsTrans (String × Mnist.RowData) (fun a b => a.1 ≤ b.1) :=
      ⟨fun _ _ _ hab hbc => le_trans hab hbc⟩
    have hs := List.sorted_insertionSort (fun (a b : String × Mnist.RowData) => a.1 ≤ b.1) data
    rw [List.Sorted, List.pairwise_map]
    exact hs
  · intro r
    unfold Mnist.acc_msg Mnist.test_msg
    refine ⟨?_, ?_, ?_, ?_⟩
    · split_ifs with h
      · exact iff_of_true rfl h
      · exact iff_of_false hd h
    · split_ifs with h
      · exact iff_of_false (Ne.symm hd) (not_not_intro h)
      · exact iff_of_true rfl h
    · split_ifs with h
      · exact iff_of_true rfl h
      · exact iff_of_false hd h
    · split_ifs with h
      · exact iff_of_false (Ne.symm hd) (not_not_intro h)
      · exact iff_of_true rfl h

/-- A classifier behaviour whose `fit` always succeeds, used as a concrete
instantiation of the library-supplied behaviours. -/
def okBeh : String → Mnist.Behavior :=
  fun _ => ⟨fun _ _ => Except.ok (fun _ => []), 0, 0⟩

/-- A classifier behaviour whose `fit` always raises. -/
def failBeh : String → Mnist.Behavior :=
  fun _ => ⟨fun _ _ => Except.error "boom", 0, 0⟩

/-- An empty concrete dataset. -/
def emptyDataset : Mnist.Dataset := ⟨[], [], [], []⟩

lemma allOk_okBeh (d : Mnist.Dataset) : Mnist.AllOk d (Mnist.mainClassifiers okBeh) := by
  intro c hc
  obtain ⟨n, -, rfl⟩ := List.mem_map.mp hc
  rfl

/-- C2: the `classifiers` list built in `main` has exactly twelve entries,
and on a run where every `fit` succeeds the `fit` calls in the emitted trace
are exactly one per entry, in list order. -/
theorem claim_C2 (fmtS : ℚ → String) (beh : String → Mnist.Behavior) (d : Mnist.Dataset)
    (h : Mnist.AllOk d (Mnist.mainClassifiers beh)) :
    (Mnist.mainClassifiers beh).length = 12 ∧
    (Mnist.pythonMain fmtS beh d).1.filter Mnist.isFit
      = Mnist.mainClassifierNames.map Mnist.PyEvent.fitCall := by
  refine ⟨rfl, ?_⟩
  rw [Mnist.pythonMain, Mnist.mainRun, Mnist.mainLoop_allOk fmtS d _ h]
  simp [List.filter_append, Mnist.filter_isFit_flatMap, Mnist.filter_isFit_print_website,
    Mnist.mainClassifiers, List.map_map, Function.comp, Mnist.isFit]

/-- Witness for C2 on an all-successful concrete run. -/
theorem claim_C2_witness : (Mnist.mainClassifiers okBeh).length = 12 :=
  (claim_C2 (fun _ => "") okBeh emptyDataset (allOk_okBeh emptyDataset)).1

/-- C5: on a run where every `fit` succeeds, script two writes no file — its
trace has no file-write event — it prints, for every classifier, the
confusion matrix of the test labels against that classifier's chunked
predictions, and it ends with the HTML table holding one row per
classifier. -/
theorem claim_C5 (fmtS : ℚ → String) (beh : String → Mnist.Behavior) (d : Mnist.Dataset)
    (h : Mnist.AllOk d (Mnist.mainClassifiers beh)) :
    (∀ e ∈ (Mnist.pythonMain fmtS beh d).1, Mnist.isWrite e = false) ∧
    (∀ c ∈ Mnist.mainClassifiers beh,
        Mnist.PyEvent.printConfusion d.testY
            (Mnist.chunkedPredict (Mnist.fittedPredict d c) d.testX)
          ∈ (Mnist.pythonMain fmtS beh d).1) ∧
    (∃ body, (Mnist.pythonMain fmtS beh d).1
        = body ++ Mnist.print_website fmtS ((Mnist.mainClassifiers beh).map (Mnist.rowOf d)) ∧
      (Mnist.sortedItems ((Mnist.mainClassifiers beh).map (Mnist.rowOf d))).length = 12) := by
  rw [Mnist.pythonMain, Mnist.mainRun, Mnist.mainLoop_allOk fmtS d _ h]
  simp only [List.nil_append]
  refine ⟨?_, ?_, ?_⟩
  · intro e he
    rcases List.mem_append.mp he with h1 | h1
    · simp only [List.mem_singleton] at h1
      subst h1
      rfl
    · rcases List.mem_append.mp h1 with h2 | h2
      · obtain ⟨c, -, hc⟩ := List.mem_flatMap.mp h2
        exact Mnist.not_isWrite_of_mem_normalSeg hc
      · obtain ⟨s, rfl⟩ := Mnist.mem_print_website h2
        rfl
  · intro c hc
    refine List.mem_append.mpr (Or.inr (List.mem_append.mpr (Or.inl ?_)))
    refine List.mem_flatMap.mpr ⟨c, hc, ?_⟩
    simp [Mnist.normalSeg, Mnist.analyzeTrace]
  · refine ⟨[Mnist.PyEvent.getData] ++ (Mnist.mainClassifiers beh).flatMap (Mnist.normalSeg d),
      by rw [List.append_assoc], ?_⟩
    have hp := (List.perm_insertionSort
      (fun (a b : String × Mnist.RowData) => a.1 ≤ b.1)
      ((Mnist.mainClassifiers beh).map (Mnist.rowOf d))).length_eq
    rw [Mnist.sortedItems, hp, List.length_map]
    rfl

/-- Witness for C5: the first classifier's confusion-matrix print is in the
trace of an all-successful concrete run. -/
theorem claim_C5_witness :
    Mnist.PyEvent.printConfusion emptyDataset.testY
        (Mnist.chunkedPredict
          (Mnist.fittedPredict emptyDataset ⟨"NN 500:200", okBeh "NN 500:200"⟩)
          emptyDataset.testX)
      ∈ (Mnist.pythonMain (fun _ => "") okBeh emptyDataset).1 :=
  (claim_C5 (fun _ => "") okBeh emptyDataset (allOk_okBeh emptyDataset)).2.1
    ⟨"NN 500:200", okBeh "NN 500:200"⟩
    (List.mem_map.mpr ⟨"NN 500:200", by simp [Mnist.mainClassifierNames], rfl⟩)

/-- C7: neither script reads its command-line arguments: two invocations with
different argument vectors but the same remaining inputs behave
identically. -/
theorem claim_C7 (argv1 argv2 : List String) :
    (∀ (fmtS : ℚ → String) (beh : String → Mnist.Behavior) (d : Mnist.Dataset),
        Mnist.pythonMainCLI argv1 fmtS beh d = Mnist.pythonMainCLI argv2 fmtS beh d) ∧
    (∀ (dimOrdering : String) (ld : Except String Gtsdb.LoadedData)
        (smoothed : List (List ℚ)) (ft : Except String Gtsdb.Histories),
        Gtsdb.trainScriptCLI argv1 dimOrdering ld smoothed ft
          = Gtsdb.trainScriptCLI argv2 dimOrdering ld smoothed ft) :=
  ⟨fun _ _ _ => rfl, fun _ _ _ _ => rfl⟩

/-- C6: neither script installs an error handler.  In script two an exception
raised while fitting any classifier propagates out of `main`: the run's trace
stops right after the failing `fit` call, `print_website` is never reached
(its header line is nowhere in the trace), and no retry happens.  In script
one an exception from the data-loading or the training stage propagates
unchanged out of the script body. -/
theorem claim_C6 (fmtS : ℚ → String) (beh : String → Mnist.Behavior) (d : Mnist.Dataset)
    (before : List Mnist.ClfEntry) (c : Mnist.ClfEntry) (after : List Mnist.ClfEntry)
    (e : String) (hsplit : Mnist.mainClassifiers beh = before ++ c :: after)
    (hok : Mnist.AllOk d before) (hfail : Mnist.fitResult d c = Except.error e) :
    Mnist.pythonMain fmtS beh d
      = (Mnist.PyEvent.getData ::
           (before.flatMap (Mnist.normalSeg d) ++ Mnist.segHead c), some e) ∧
    Mnist.PyEvent.printLine Mnist.websiteHeader ∉ (Mnist.pythonMain fmtS beh d).1 ∧
    (∀ (dimOrdering : String) (smoothed : List (List ℚ))
        (ft : Except String Gtsdb.Histories) (e' : String),
        Gtsdb.trainScriptE dimOrdering (Except.error e') smoothed ft = Except.error e') ∧
    (∀ (dimOrdering : String) (d' : Gtsdb.LoadedData) (smoothed : List (List ℚ))
        (e' : String),
        Gtsdb.trainScriptE dimOrdering (Except.ok d') smoothed (Except.error e')
          = Except.error e') := by
  have hrun : Mnist.pythonMain fmtS beh d
      = (Mnist.PyEvent.getData ::
           (before.flatMap (Mnist.normalSeg d) ++ Mnist.segHead c), some e) := by
    rw [Mnist.pythonMain, Mnist.mainRun, hsplit,
      Mnist.mainLoop_firstFail fmtS d before c after e hok hfail]
    rfl
  refine ⟨hrun, ?_, fun _ _ _ _ => rfl, fun _ _ _ _ => rfl⟩
  rw [hrun]
  intro hmem
  simp only [List.mem_cons, List.mem_append] at hmem
  rcases hmem with h1 | h1 | h1
  · exact Mnist.PyEvent.noConfusion h1
  · obtain ⟨c', -, hc'⟩ := List.mem_flatMap.mp h1
    exact Mnist.header_not_mem_normalSeg d c' hc'
  · exact Mnist.header_not_mem_segHead c h1

/-- C8: both scripts are linear.  In script two, on a run where every `fit`
succeeds: the dataset load is the first event; every `fit` call precedes
every `predict` call on the same classifier; each classifier's `fit` and
`predict` calls all precede the next classifier's `fit`; and the HTML report
comes after every classifier's `fit` (the report block contains no `fit` or
`predict` events).  In script one, an exception in the fitting stage prevents
the reporting stage entirely. -/
theorem claim_C8 (fmtS : ℚ → String) (beh : String → Mnist.Behavior) (d : Mnist.Dataset)
    (h : Mnist.AllOk d (Mnist.mainClassifiers beh)) :
    (Mnist.pythonMain fmtS beh d).1.head? = some Mnist.PyEvent.getData ∧
    (∀ n ∈ Mnist.mainClassifierNames,
        Mnist.Precedes (Mnist.pythonMain fmtS beh d).1
          (fun ev => ev = Mnist.PyEvent.fitCall n) (Mnist.isPredictOf n)) ∧
    (∀ (k : ℕ) (hk : k + 1 < Mnist.mainClassifierNames.length),
        Mnist.Precedes (Mnist.pythonMain fmtS beh d).1
          (fun ev =>
            ev = Mnist.PyEvent.fitCall (Mnist.mainClassifierNames.get ⟨k, by omega⟩)
              ∨ Mnist.isPredictOf (Mnist.mainClassifierNames.get ⟨k, by omega⟩) ev)
          (fun ev => ev = Mnist.PyEvent.fitCall (Mnist.mainClassifierNames.get ⟨k + 1, hk⟩))) ∧
    (∃ body tbl, (Mnist.pythonMain fmtS beh d).1 = body ++ Mnist.print_website fmtS tbl ∧
      (∀ n ∈ Mnist.mainClassifierNames, Mnist.PyEvent.fitCall n ∈ body) ∧
      (∀ ev ∈ Mnist.print_website fmtS tbl,
        Mnist.isFit ev = false ∧ Mnist.isPredict ev = false)) ∧
    (∀ (dimOrdering : String) (d' : Gtsdb.LoadedData) (smoothed : List (List ℚ))
        (e' : String),
        Gtsdb.trainScriptE dimOrdering (Except.ok d') smoothed (Except.error e')
          = Except.error e') := by
  have hrun : (Mnist.pythonMain fmtS beh d).1
      = [Mnist.PyEvent.getData] ++
          ((Mnist.mainClassifiers beh).flatMap (Mnist.normalSeg d)
            ++ Mnist.print_website fmtS ((Mnist.mainClassifiers beh).map (Mnist.rowOf d))) := by
    rw [Mnist.pythonMain, Mnist.mainRun, Mnist.mainLoop_allOk fmtS d _ h]
    simp
  have hnd : Mnist.mainClassifierNames.Nodup := by decide
  refine ⟨?_, ?_, ?_, ?_, fun _ _ _ _ => rfl⟩
  · rw [hrun]
    rfl
  · intro n hn
    obtain ⟨s, t, hst⟩ := List.append_of_mem hn
    have hnd2 : (s ++ n :: t).Nodup := hst ▸ hnd
    obtain ⟨-, hnt, hdisj⟩ := List.nodup_append.mp hnd2
    have hns : n ∉ s := fun hmem => hdisj hmem (List.mem_cons_self n t)
    have hnt2 : n ∉ t := (List.nodup_cons.mp hnt).1
    have hsplit2 : (Mnist.pythonMain fmtS beh d).1
        = ([Mnist.PyEvent.getData]
            ++ ((s.map (fun m => ({ name := m, beh := beh m } : Mnist.ClfEntry))).flatMap
                  (Mnist.normalSeg d)
                ++ Mnist.segHead { name := n, beh := beh n }))
          ++ (Mnist.analyzeTrace (Mnist.fittedPredict d { name := n, beh := beh n }) n
                (beh n).testTime (beh n).fitTime d
              ++ (((t.map (fun m => ({ name := m, beh := beh m } : Mnist.ClfEntry))).flatMap
                    (Mnist.normalSeg d))
                  ++ Mnist.print_website fmtS
                      ((Mnist.mainClassifiers beh).map (Mnist.rowOf d)))) := by
      rw [hrun]
      have hcs : (Mnist.mainClassifiers beh).flatMap (Mnist.normalSeg d)
          = (s.map (fun m => ({ name := m, beh := beh m } : Mnist.ClfEntry))).flatMap
              (Mnist.normalSeg d)
            ++ (Mnist.normalSeg d { name := n, beh := beh n }
              ++ (t.map (fun m => ({ name := m, beh := beh m } : Mnist.ClfEntry))).flatMap
                  (Mnist.normalSeg d)) := by
        rw [Mnist.mainClassifiers, hst]
        simp [List.flatMap_append]
      rw [hcs, Mnist.normalSeg]
      simp [List.append_assoc]
    rw [hsplit2]
    apply Mnist.precedes_append
    · intro ev hev hq
      have hc := Mnist.eventClf_of_isPredictOf hq
      rcases List.mem_append.mp hev with h1 | h1
      · simp only [List.mem_singleton] at h1
        subst h1
        exact Option.noConfusion hc
      · rcases List.mem_append.mp h1 with h2 | h2
        · exact Mnist.eventClf_ne_of_mem_flatMap hns h2 hc
        · exact Mnist.not_isPredictOf_of_mem_segHead h2 hq
    · intro ev hev hp
      subst hp
      rcases List.mem_append.mp hev with h1 | h1
      · have h2 := Mnist.not_isFit_of_mem_analyzeTrace h1
        simp [Mnist.isFit] at h2
      · rcases List.mem_append.mp h1 with h2 | h2
        · exact Mnist.eventClf_ne_of_mem_flatMap hnt2 h2 rfl
        · have h3 := Mnist.eventClf_of_mem_print_website h2
          exact Option.noConfusion (h3.symm.trans (rfl : Mnist.eventClf
            (Mnist.PyEvent.fitCall n) = some n))
  · intro k hk
    have hkL : k < Mnist.mainClassifierNames.length := by omega
    have hmem_take : Mnist.mainClassifierNames.get ⟨k, hkL⟩
        ∈ Mnist.mainClassifierNames.take (k + 1) := by
      have hlt : k < (Mnist.mainClassifierNames.take (k + 1)).length := by
        rw [List.length_take]
        exact lt_min (by omega) (by omega)
      have hg : (Mnist.mainClassifierNames.take (k + 1))[k]
          = Mnist.mainClassifierNames.get ⟨k, hkL⟩ := by
        rw [List.getElem_take]
        simp [List.get_eq_getElem]
      rw [← hg]
      exact List.getElem_mem hlt
    have hnk_not_drop := Mnist.nodup_get_not_mem_drop hnd k hkL
    have hnk1_not_take := Mnist.nodup_get_not_mem_take hnd (k + 1) hk
    have hflat : (Mnist.mainClassifiers beh).flatMap (Mnist.normalSeg d)
        = ((Mnist.mainClassifierNames.take (k + 1)).map
              (fun m => ({ name := m, beh := beh m } : Mnist.ClfEntry))).flatMap
            (Mnist.normalSeg d)
          ++ ((Mnist.mainClassifierNames.drop (k + 1)).map
              (fun m => ({ name := m, beh := beh m } : Mnist.ClfEntry))).flatMap
            (Mnist.normalSeg d) := by
      rw [← List.flatMap_append, ← List.map_append, List.take_append_drop]
      rfl
    have hsplit3 : (Mnist.pythonMain fmtS beh d).1
        = ([Mnist.PyEvent.getData]
            ++ ((Mnist.mainClassifierNames.take (k + 1)).map
                  (fun m => ({ name := m, beh := beh m } : Mnist.ClfEntry))).flatMap
                (Mnist.normalSeg d))
          ++ (((Mnist.mainClassifierNames.drop (k + 1)).map
                  (fun m => ({ name := m, beh := beh m } : Mnist.ClfEntry))).flatMap
                (Mnist.normalSeg d)
              ++ Mnist.print_website fmtS
                  ((Mnist.mainClassifiers beh).map (Mnist.rowOf d))) := by
      rw [hrun, hflat]
      simp [List.append_assoc]
    rw [hsplit3]
    apply Mnist.precedes_append
    · intro ev hev hq
      subst hq
      rcases List.mem_append.mp hev with h1 | h1
      · simp only [List.mem_singleton] at h1
        exact Mnist.PyEvent.noConfusion h1
      · exact Mnist.eventClf_ne_of_mem_flatMap hnk1_not_take h1 rfl
    · intro ev hev hpq
      have hc : Mnist.eventClf ev
          = some (Mnist.mainClassifierNames.get ⟨k, hkL⟩) := by
        rcases hpq with rfl | hq
        · rfl
        · exact Mnist.eventClf_of_isPredictOf hq
      rcases List.mem_append.mp hev with h1 | h1
      · exact Mnist.eventClf_ne_of_mem_flatMap hnk_not_drop h1 hc
      · have h3 := Mnist.eventClf_of_mem_print_website h1
        rw [h3] at hc
        exact Option.noConfusion hc
  · refine ⟨[Mnist.PyEvent.getData]
        ++ (Mnist.mainClassifiers beh).flatMap (Mnist.normalSeg d),
      (Mnist.mainClassifiers beh).map (Mnist.rowOf d), ?_, ?_, ?_⟩
    · rw [hrun]
      exact (List.append_assoc _ _ _).symm
    · intro n hn
      refine List.mem_append.mpr (Or.inr ?_)
      refine List.mem_flatMap.mpr ⟨{ name := n, beh := beh n },
        List.mem_map_of_mem _ hn, ?_⟩
      simp [Mnist.normalSeg, Mnist.segHead]
    · intro ev hev
      obtain ⟨s, rfl⟩ := Mnist.mem_print_website hev
      exact ⟨rfl, rfl⟩

/-- Witness for C8: the concrete all-successful run starts by loading the
dataset. -/
theorem claim_C8_witness :
    (Mnist.pythonMain (fun _ => "") okBeh emptyDataset).1.head?
      = some Mnist.PyEvent.getData :=
  (claim_C8 (fun _ => "") okBeh emptyDataset (allOk_okBeh emptyDataset)).1

/-- Witness for C6: a concrete run whose first `fit` raises never prints the
report header. -/
theorem claim_C6_witness :
    Mnist.PyEvent.printLine Mnist.websiteHeader ∉
      (Mnist.pythonMain (fun _ => "") failBeh emptyDataset).1 :=
  (claim_C6 (fun _ => "") failBeh emptyDataset []
      ⟨"NN 500:200", failBeh "NN 500:200"⟩
      ((Mnist.mainClassifierNames.drop 1).map (fun n => ⟨n, failBeh n⟩))
      "boom" rfl (fun c hc => absurd hc (List.not_mem_nil c)) rfl).2.1

end Spec2Proof
